import Mathlib

/-!
Shallow embedding of `from_generator_to_coroutine/gen_co.py`: a minimal
cooperative task scheduler built on generator objects.  `Task` holds a
suspended computation (`_generator`), an optional parent back-reference
(`_parent`), and a once-written outcome (`_result` / `_exception`);
`EventLoop.run_until_complete` drives a FIFO queue of tasks.

Modelling conventions:
* Python values are `Option V` with `none` standing for Python `None`;
  the `_Missing` sentinel is the outer `none` of `_result : Option (Option V)`.
* Python exceptions are `PyErr E`: `invalidState` models `InvalidStateError`,
  `genNone` models the plain `Exception("generator should not be None")`
  raised by `x_generator`, and `user e` models every other exception object.
* A Python generator object is a `Gen V E`: a function from the resume input
  (`gen.send(v)` or `gen.throw(e)`) to the observable outcome of running the
  body to its next suspension point (`yield`ed value plus advanced generator,
  `StopIteration` value, or an escaping exception).
* The Python object heap is a total map `Nat → Task V E`; task references in
  the queue, in `_parent` links and in `yield`ed values are heap indices.
-/

namespace GenCo

/-- Python exception universe used by the embedding. -/
inductive PyErr (E : Type) : Type where
  | invalidState : PyErr E
  | genNone : PyErr E
  | user : E → PyErr E
deriving DecidableEq, Repr

/-- Input delivered when the scheduler resumes a generator:
`gen.send(sending)` or `gen.throw(throwing)`. -/
inductive ResumeInput (V E : Type) : Type where
  | send : Option V → ResumeInput V E
  | throw : PyErr E → ResumeInput V E
deriving DecidableEq, Repr

mutual
/-- A Python generator object, seen from the scheduler: resuming it with a
send/throw input produces an outcome. -/
inductive Gen (V E : Type) : Type where
  | mk : (ResumeInput V E → GenOut V E) → Gen V E

/-- Outcome of resuming a generator: it yields a `Task[Any] | None` value and
suspends (advanced generator attached), finishes with `StopIteration(value)`,
or lets an exception escape. -/
inductive GenOut (V E : Type) : Type where
  | yielded : Option Nat → Gen V E → GenOut V E
  | stopped : Option V → GenOut V E
  | raised : PyErr E → GenOut V E
end

/-- Resume a generator object with a send/throw input. -/
def Gen.resume {V E : Type} : Gen V E → ResumeInput V E → GenOut V E
  | .mk k => k

/-- A generator that has already finished: any further resume raises a bare
`StopIteration` (value `None`), as CPython does. -/
def Gen.exhausted {V E : Type} : Gen V E :=
  .mk fun _ => .stopped none

/-- The `Task` class: parent back-reference, bound generator, and the
once-written outcome.  `_result = none` models the `_Missing` sentinel. -/
structure Task (V E : Type) where
  _parent : Option Nat
  _generator : Option (Gen V E)
  _result : Option (Option V)
  _exception : Option (PyErr E)

namespace Task

variable {V E : Type}

/-- `Task.__init__`: no parent, no generator, `_Missing` result, no exception. -/
def init : Task V E :=
  { _parent := none, _generator := none, _result := none, _exception := none }

/-- `Task.x_set_generator`: unconditionally stores the generator. -/
def x_set_generator (t : Task V E) (g : Gen V E) : Task V E :=
  { t with _generator := some g }

/-- `Task.x_generator`: returns the generator, raising if it is `None`. -/
def x_generator (t : Task V E) : Except (PyErr E) (Gen V E) :=
  match t._generator with
  | none => .error .genNone
  | some g => .ok g

/-- `Task.x_set_parent`: unconditionally stores the parent reference. -/
def x_set_parent (t : Task V E) (p : Nat) : Task V E :=
  { t with _parent := some p }

/-- `Task.x_parent`: reads the parent reference. -/
def x_parent (t : Task V E) : Option Nat :=
  t._parent

/-- `Task.set_result`: writes the value outcome if `_result` is `_Missing`
and `_exception` is `None`, else raises `InvalidStateError`. -/
def set_result (t : Task V E) (r : Option V) : Except (PyErr E) (Task V E) :=
  if t._result.isNone && t._exception.isNone then
    .ok { t with _result := some r }
  else
    .error .invalidState

/-- `Task.set_exception`: writes the exception outcome if `_result` is
`_Missing` and `_exception` is `None`, else raises `InvalidStateError`. -/
def set_exception (t : Task V E) (e : PyErr E) : Except (PyErr E) (Task V E) :=
  if t._result.isNone && t._exception.isNone then
    .ok { t with _exception := some e }
  else
    .error .invalidState

/-- `Task.result`: the stored value if present, else raise the stored
exception if present, else raise `InvalidStateError`. -/
def result (t : Task V E) : Except (PyErr E) (Option V) :=
  match t._result with
  | some r => .ok r
  | none =>
    match t._exception with
    | some e => .error e
    | none => .error .invalidState

/-- `Task.done`: the outcome has been written (value or exception). -/
def done (t : Task V E) : Bool :=
  t._result.isSome || t._exception.isSome

end Task

/-- The Python object heap: every `Nat` task reference has a `Task` behind it. -/
def Heap (V E : Type) : Type :=
  Nat → Task V E

/-- Write one task cell of the heap. -/
def setTask {V E : Type} (tasks : Heap V E) (i : Nat) (t : Task V E) : Heap V E :=
  fun j => if j = i then t else tasks j

/-- State of `EventLoop.run_until_complete`: the `_tasks_queue` of the
`EventLoop` object (task references, FIFO) together with the object heap. -/
structure LoopState (V E : Type) where
  tasks : Heap V E
  _tasks_queue : List Nat

variable {V E : Type}

/-- The head of the loop body: pop `next_task`, decide who runs.  Returns the
running task reference with the input delivered to its generator
(`sending` / `throwing`), or `none` for the `continue` branch (popped task is
done and has no parent).  Mirrors the `if not next_task.done() / elif
parent_task is not None / else: continue` cascade; the `try/except` around
`next_task.result()` turns a raising `result()` into a `throw` delivery. -/
def chooseRunning (tasks : Heap V E) (c : Nat) : Option (Nat × ResumeInput V E) :=
  if (tasks c).done = false then
    some (c, .send none)
  else
    match (tasks c).x_parent with
    | some p =>
      match (tasks c).result with
      | .ok v => some (p, .send v)
      | .error e => some (p, .throw e)
    | none => none

/-- The tail of the loop body: react to the outcome of resuming task `r`'s
generator.  `StopIteration` → `set_result` and requeue `r`; other escaping
exception → `set_exception` and requeue `r`; yielded a task → set its parent
to `r` and enqueue it; yielded `None` → requeue `r`.  A raising
`set_result`/`set_exception` escapes the loop (`.error`).  The resumed
generator object advances in place, so `r`'s `_generator` cell is updated to
the continuation (or to an exhausted generator once it terminated). -/
def deliver (tasks : Heap V E) (rest : List Nat) (r : Nat) (out : GenOut V E) :
    Except (PyErr E) (LoopState V E) :=
  match out with
  | .stopped v =>
    let tasks' := setTask tasks r ((tasks r).x_set_generator Gen.exhausted)
    match (tasks' r).set_result v with
    | .ok t' => .ok ⟨setTask tasks' r t', rest ++ [r]⟩
    | .error e => .error e
  | .raised e =>
    let tasks' := setTask tasks r ((tasks r).x_set_generator Gen.exhausted)
    match (tasks' r).set_exception e with
    | .ok t' => .ok ⟨setTask tasks' r t', rest ++ [r]⟩
    | .error e' => .error e'
  | .yielded new_task g' =>
    let tasks' := setTask tasks r ((tasks r).x_set_generator g')
    match new_task with
    | some c => .ok ⟨setTask tasks' c ((tasks' c).x_set_parent r), rest ++ [c]⟩
    | none => .ok ⟨tasks', rest ++ [r]⟩

/-- One full iteration of the `while` loop body, after popping `c` from the
front of the queue (`rest` is the remaining queue).  A `None` generator makes
`x_generator` raise inside the `try`, which the `except BaseException` arm
catches like any other escaping exception. -/
def runIteration (tasks : Heap V E) (c : Nat) (rest : List Nat) :
    Except (PyErr E) (LoopState V E) :=
  match chooseRunning tasks c with
  | none => .ok ⟨tasks, rest⟩
  | some (r, input) =>
    match (tasks r)._generator with
    | none => deliver tasks rest r (.raised .genNone)
    | some g => deliver tasks rest r (g.resume input)

/-- The `while len(self._tasks_queue) > 0` loop, fuelled: `none` means the
fuel ran out before the queue emptied, `some (.error e)` that an exception
escaped the loop body, `some (.ok s)` that the loop finished in state `s`. -/
def loopWhile (fuel : Nat) (s : LoopState V E) :
    Option (Except (PyErr E) (LoopState V E)) :=
  match fuel with
  | 0 => none
  | fuel' + 1 =>
    match s._tasks_queue with
    | [] => some (.ok s)
    | c :: rest =>
      match runIteration s.tasks c rest with
      | .ok s' => loopWhile fuel' s'
      | .error e => some (.error e)

/-- `EventLoop.run_until_complete(task)`: append `task` to the queue, run the
loop to emptiness, then return `task.result()` (value, or raising the stored
exception, or `InvalidStateError` if somehow still pending). -/
def run_until_complete (fuel : Nat) (s : LoopState V E) (root : Nat) :
    Option (Except (PyErr E) (Option V)) :=
  match loopWhile fuel { s with _tasks_queue := s._tasks_queue ++ [root] } with
  | none => none
  | some (.error e) => some (.error e)
  | some (.ok sF) => some ((sF.tasks root).result)

/-- `run(task)`: `run_until_complete` on the process-wide loop, whose queue is
empty when no run is in progress. -/
def run (fuel : Nat) (tasks : Heap V E) (root : Nat) :
    Option (Except (PyErr E) (Option V)) :=
  run_until_complete fuel ⟨tasks, []⟩ root

/-! Heap helper lemmas. -/

theorem setTask_self (tasks : Heap V E) (i : Nat) (t : Task V E) :
    setTask tasks i t i = t := by
  simp [setTask]

theorem setTask_ne (tasks : Heap V E) (i j : Nat) (t : Task V E) (h : j ≠ i) :
    setTask tasks i t j = tasks j := by
  simp [setTask, h]

/-- Successful `set_result` characterized: it succeeds exactly on a task that
is not done, and writes the value. -/
theorem set_result_ok_iff (t : Task V E) (v : Option V) (t' : Task V E) :
    t.set_result v = .ok t' ↔ (t.done = false ∧ t' = { t with _result := some v }) := by
  obtain ⟨tp, tg, tr, te⟩ := t
  cases tr <;> cases te <;> simp [Task.set_result, Task.done, eq_comm]

/-- Successful `set_exception` characterized: it succeeds exactly on a task
that is not done, and writes the exception. -/
theorem set_exception_ok_iff (t : Task V E) (e : PyErr E) (t' : Task V E) :
    t.set_exception e = .ok t' ↔ (t.done = false ∧ t' = { t with _exception := some e }) := by
  obtain ⟨tp, tg, tr, te⟩ := t
  cases tr <;> cases te <;> simp [Task.set_exception, Task.done, eq_comm]

/-! Concrete generators and heaps used by scenario and witness theorems. -/

/-- A generator body that immediately returns `v`. -/
def genReturn (v : Option V) : Gen V E :=
  .mk fun _ => .stopped v

/-- A generator body that raises `e` on its first resume. -/
def genRaise (e : PyErr E) : Gen V E :=
  .mk fun _ => .raised e

/-- A generator body that yields `None` (yield-control) `n` times and then
returns `v`. -/
def genYieldN : Nat → Option V → Gen V E
  | 0, v => genReturn v
  | n + 1, v => .mk fun _ => .yielded none (genYieldN n v)

/-- A heap whose only populated cell is task `0`. -/
def heapSolo (g : Gen V E) : Heap V E :=
  setTask (fun _ => Task.init) 0 (Task.init.x_set_generator g)

/-- Root task returning the value `5`. -/
def heapReturn5 : Heap Nat Nat :=
  heapSolo (genReturn (some 5))

/-- Root task raising the user exception `7`. -/
def heapRaise7 : Heap Nat Nat :=
  heapSolo (genRaise (.user 7))

/-- Root task yield-controlling three times before returning `"done"`. -/
def heap3yield : Heap String Unit :=
  heapSolo (genYieldN 3 (some "done"))

/-- Root task returning `"done"` without any yield-control. -/
def heap0yield : Heap String Unit :=
  heapSolo (genYieldN 0 (some "done"))

/-! Claim theorems. -/

/-- C1: for every Task, `result()` raises `InvalidStateError` while the
outcome is pending; after a successful `set_result(v)`, `result()` returns
exactly `v`; after a successful `set_exception(e)`, `result()` raises exactly
the stored exception `e`. -/
theorem task_result_roundtrip (t : Task V E)
    (hr : t._result = none) (he : t._exception = none) :
    t.result = .error .invalidState ∧
    (∀ v : Option V,
      t.set_result v = .ok { t with _result := some v } ∧
      ({ t with _result := some v } : Task V E).result = .ok v) ∧
    (∀ e : PyErr E,
      t.set_exception e = .ok { t with _exception := some e } ∧
      ({ t with _exception := some e } : Task V E).result = .error e) := by
  refine ⟨?_, fun v => ⟨?_, ?_⟩, fun e => ⟨?_, ?_⟩⟩
  · simp [Task.result, hr, he]
  · simp [Task.set_result, hr, he]
  · simp [Task.result]
  · simp [Task.set_exception, hr, he]
  · simp [Task.result, hr]

/-- C1 witness: the round-trip law evaluated on a fresh task with the value
`5` and the user exception `3`. -/
theorem task_result_roundtrip_witness :
    (Task.init : Task Nat Nat).result = .error .invalidState ∧
    ((Task.init : Task Nat Nat).set_result (some 5) =
      .ok { Task.init with _result := some (some 5) } ∧
     ({ Task.init with _result := some (some 5) } : Task Nat Nat).result =
      .ok (some 5)) ∧
    ((Task.init : Task Nat Nat).set_exception (.user 3) =
      .ok { Task.init with _exception := some (.user 3) } ∧
     ({ Task.init with _exception := some (.user 3) } : Task Nat Nat).result =
      .error (.user 3)) := by
  obtain ⟨h1, h2, h3⟩ := task_result_roundtrip (Task.init : Task Nat Nat) rfl rfl
  exact ⟨h1, h2 (some 5), h3 (.user 3)⟩

/-- C2: on a pending task, the first `set_result` or `set_exception` call
succeeds, and after either success every further `set_result` or
`set_exception` call (in any combination) raises `InvalidStateError`. -/
theorem task_outcome_write_once (t : Task V E)
    (hr : t._result = none) (he : t._exception = none) :
    (∀ v, t.set_result v = .ok { t with _result := some v }) ∧
    (∀ e, t.set_exception e = .ok { t with _exception := some e }) ∧
    (∀ v v' e,
      ({ t with _result := some v } : Task V E).set_result v' =
        .error .invalidState ∧
      ({ t with _result := some v } : Task V E).set_exception e =
        .error .invalidState) ∧
    (∀ e v' e',
      ({ t with _exception := some e } : Task V E).set_result v' =
        .error .invalidState ∧
      ({ t with _exception := some e } : Task V E).set_exception e' =
        .error .invalidState) := by
  refine ⟨fun v => ?_, fun e => ?_, fun v v' e => ⟨?_, ?_⟩, fun e v' e' => ⟨?_, ?_⟩⟩
  · simp [Task.set_result, hr, he]
  · simp [Task.set_exception, hr, he]
  · simp [Task.set_result]
  · simp [Task.set_exception]
  · simp [Task.set_result, he]
  · simp [Task.set_exception, he]

/-- C2 witness: write-once behaviour evaluated on a fresh task. -/
theorem task_outcome_write_once_witness :
    (Task.init : Task Nat Nat).set_result (some 1) =
      .ok { Task.init with _result := some (some 1) } ∧
    (Task.init : Task Nat Nat).set_exception (.user 2) =
      .ok { Task.init with _exception := some (.user 2) } ∧
    (({ Task.init with _result := some (some 1) } : Task Nat Nat).set_result
        (some 9) = .error .invalidState ∧
     ({ Task.init with _result := some (some 1) } : Task Nat Nat).set_exception
        (.user 9) = .error .invalidState) ∧
    (({ Task.init with _exception := some (.user 2) } : Task Nat Nat).set_result
        (some 9) = .error .invalidState ∧
     ({ Task.init with _exception := some (.user 2) } : Task Nat Nat).set_exception
        (.user 9) = .error .invalidState) := by
  obtain ⟨h1, h2, h3, h4⟩ := task_outcome_write_once (Task.init : Task Nat Nat) rfl rfl
  exact ⟨h1 (some 1), h2 (.user 2), h3 (some 1) (some 9) (.user 9),
    h4 (.user 2) (some 9) (.user 9)⟩

/-- Generator constant used by the C5 counterexample. -/
def gA : Gen Nat Nat :=
  .mk fun _ => .stopped none

/-- Generator constant used by the C5 counterexample, distinct from `gA`. -/
def gB : Gen Nat Nat :=
  .mk fun _ => .stopped (some 1)

/-- C5 counterexample: `x_set_generator` on a task whose generator is already
bound does not raise `UsageError`; the call succeeds and silently replaces
the previously bound (distinct) generator. -/
theorem x_set_generator_no_guard_counterexample :
    (((Task.init : Task Nat Nat).x_set_generator gA).x_set_generator gB)._generator
      = some gB ∧ gA ≠ gB := by
  refine ⟨rfl, fun h => ?_⟩
  have h2 : gA.resume (.send none) = gB.resume (.send none) := by rw [h]
  simp [gA, gB, Gen.resume] at h2

/-- C5 (amended): `x_set_generator` binds the generator unconditionally,
overwriting any previously bound one and never raising; all other fields are
untouched. -/
theorem x_set_generator_unconditional (t : Task V E) (g : Gen V E) :
    (t.x_set_generator g)._generator = some g ∧
    (t.x_set_generator g)._parent = t._parent ∧
    (t.x_set_generator g)._result = t._result ∧
    (t.x_set_generator g)._exception = t._exception :=
  ⟨rfl, rfl, rfl, rfl⟩

/-- C5 witness: the unconditional bind evaluated on an already-bound task. -/
theorem x_set_generator_unconditional_witness :
    (((Task.init : Task Nat Nat).x_set_generator gA).x_set_generator gB)._generator
      = some gB ∧
    (((Task.init : Task Nat Nat).x_set_generator gA).x_set_generator gB)._parent
      = ((Task.init : Task Nat Nat).x_set_generator gA)._parent :=
  ⟨(x_set_generator_unconditional ((Task.init : Task Nat Nat).x_set_generator gA) gB).1,
   (x_set_generator_unconditional ((Task.init : Task Nat Nat).x_set_generator gA) gB).2.1⟩

/-- C6 counterexample: `x_set_parent` on a task whose parent is already set
does not raise `UsageError` but silently overwrites it, and it also succeeds
on a task that is already resolved. -/
theorem x_set_parent_no_guard_counterexample :
    (((Task.init : Task Nat Nat).x_set_parent 1).x_set_parent 2)._parent = some 2 ∧
    (({ Task.init with _result := some (some 0) } : Task Nat Nat).x_set_parent 3)._parent
      = some 3 ∧
    ({ Task.init with _result := some (some 0) } : Task Nat Nat).done = true :=
  ⟨rfl, rfl, rfl⟩

/-- C6 (amended): `x_set_parent` records the parent unconditionally,
overwriting any previously set parent and regardless of the task's resolution
state; it never raises, and all other fields are untouched. -/
theorem x_set_parent_unconditional (t : Task V E) (p : Nat) :
    (t.x_set_parent p)._parent = some p ∧
    (t.x_set_parent p)._generator = t._generator ∧
    (t.x_set_parent p)._result = t._result ∧
    (t.x_set_parent p)._exception = t._exception :=
  ⟨rfl, rfl, rfl, rfl⟩

/-- C6 witness: the unconditional parent write evaluated on a task whose
parent is already set. -/
theorem x_set_parent_unconditional_witness :
    (((Task.init : Task Nat Nat).x_set_parent 1).x_set_parent 2)._parent = some 2 ∧
    (((Task.init : Task Nat Nat).x_set_parent 1).x_set_parent 2)._result
      = ((Task.init : Task Nat Nat).x_set_parent 1)._result :=
  ⟨(x_set_parent_unconditional ((Task.init : Task Nat Nat).x_set_parent 1) 2).1,
   (x_set_parent_unconditional ((Task.init : Task Nat Nat).x_set_parent 1) 2).2.2.1⟩

/-- C10: resolving a task with the Python value `None` is valid and
distinguishable from pending: a fresh task is not done and `result()` raises
`InvalidStateError`, while after `set_result(None)` the task is done and
`result()` returns `None` without raising, because pendingness is the
`_Missing` sentinel (outer `none` of `_result`), not a null check on the
stored value. -/
theorem set_result_none_distinguishable (V E : Type) :
    (Task.init : Task V E).done = false ∧
    (Task.init : Task V E).result = .error .invalidState ∧
    (Task.init : Task V E).set_result none =
      .ok { Task.init with _result := some none } ∧
    ({ Task.init with _result := some none } : Task V E).done = true ∧
    ({ Task.init with _result := some none } : Task V E).result = .ok none :=
  ⟨rfl, rfl, rfl, rfl, rfl⟩

/-- Overwriting the same heap cell twice keeps only the second write. -/
theorem setTask_setTask_self (tasks : Heap V E) (i : Nat) (a b : Task V E) :
    setTask (setTask tasks i a) i b = setTask tasks i b := by
  funext j
  by_cases h : j = i <;> simp [setTask, h]

/-- C3: if the scheduling loop, started on the queue with `root` appended,
terminates in state `sF`, then `run_until_complete` returns root's resolved
value when root resolved successfully, and raises root's stored exception
when root resolved with failure. -/
theorem run_until_complete_returns_root_outcome
    (fuel : Nat) (s : LoopState V E) (root : Nat) (sF : LoopState V E)
    (hloop : loopWhile fuel { s with _tasks_queue := s._tasks_queue ++ [root] }
      = some (.ok sF)) :
    (∀ v, (sF.tasks root)._result = some v →
      run_until_complete fuel s root = some (.ok v)) ∧
    (∀ e, (sF.tasks root)._result = none → (sF.tasks root)._exception = some e →
      run_until_complete fuel s root = some (.error e)) := by
  constructor
  · intro v hv
    simp [run_until_complete, hloop, Task.result, hv]
  · intro e hre hee
    simp [run_until_complete, hloop, Task.result, hre, hee]

/-- Final loop state of the `heapReturn5` scenario. -/
def finalReturn5 : LoopState Nat Nat :=
  match loopWhile 3 ⟨heapReturn5, [0]⟩ with
  | some (.ok s) => s
  | _ => ⟨heapReturn5, []⟩

/-- Final loop state of the `heapRaise7` scenario. -/
def finalRaise7 : LoopState Nat Nat :=
  match loopWhile 3 ⟨heapRaise7, [0]⟩ with
  | some (.ok s) => s
  | _ => ⟨heapRaise7, []⟩

/-- C3 witness: a root returning `5` makes `run` return `5`; a root raising
the user exception `7` makes `run` raise exactly that exception. -/
theorem run_until_complete_returns_root_outcome_witness :
    run 3 heapReturn5 0 = some (.ok (some 5)) ∧
    run 3 heapRaise7 0 = some (.error (.user 7)) :=
  ⟨(run_until_complete_returns_root_outcome 3 ⟨heapReturn5, []⟩ 0 finalReturn5 rfl).1
      (some 5) rfl,
   (run_until_complete_returns_root_outcome 3 ⟨heapRaise7, []⟩ 0 finalRaise7 rfl).2
      (.user 7) rfl rfl⟩

/-- C4: popping a task that is resolved with exception `e` and has parent `p`
resumes `p`'s generator by throwing exactly `e` into it at its suspension
point; if the generator body handles `e` and returns `v`, `p` resolves with
`v` and does not fail; if it handles `e` and suspends again, `p`'s outcome is
untouched; if `e` propagates uncaught, exactly `e` becomes `p`'s own stored
exception. -/
theorem child_exception_redelivery
    (tasks : Heap V E) (c : Nat) (rest : List Nat) (p : Nat) (e : PyErr E)
    (g : Gen V E)
    (hcr : (tasks c)._result = none) (hce : (tasks c)._exception = some e)
    (hcp : (tasks c)._parent = some p)
    (hg : (tasks p)._generator = some g) :
    runIteration tasks c rest = deliver tasks rest p (g.resume (.throw e)) ∧
    (∀ v, g.resume (.throw e) = .stopped v →
      (tasks p)._result = none → (tasks p)._exception = none →
      runIteration tasks c rest =
        .ok ⟨setTask tasks p
              { (tasks p).x_set_generator Gen.exhausted with _result := some v },
            rest ++ [p]⟩ ∧
      (∀ s', runIteration tasks c rest = .ok s' →
        (s'.tasks p)._result = some v ∧ (s'.tasks p)._exception = none)) ∧
    (∀ ch g' s', g.resume (.throw e) = .yielded ch g' →
      runIteration tasks c rest = .ok s' →
      (s'.tasks p)._result = (tasks p)._result ∧
      (s'.tasks p)._exception = (tasks p)._exception) ∧
    (g.resume (.throw e) = .raised e →
      (tasks p)._result = none → (tasks p)._exception = none →
      runIteration tasks c rest =
        .ok ⟨setTask tasks p
              { (tasks p).x_set_generator Gen.exhausted with _exception := some e },
            rest ++ [p]⟩ ∧
      (∀ s', runIteration tasks c rest = .ok s' →
        (s'.tasks p)._exception = some e)) := by
  have hchoose : chooseRunning tasks c = some (p, .throw e) := by
    simp [chooseRunning, Task.done, Task.x_parent, Task.result, hcr, hce, hcp]
  have heq : runIteration tasks c rest = deliver tasks rest p (g.resume (.throw e)) := by
    simp [runIteration, hchoose, hg]
  refine ⟨heq, ?_, ?_, ?_⟩
  · intro v hout hpr hpe
    have hit : runIteration tasks c rest =
        .ok ⟨setTask tasks p
              { (tasks p).x_set_generator Gen.exhausted with _result := some v },
            rest ++ [p]⟩ := by
      rw [heq, hout]
      simp [deliver, setTask_self, Task.set_result, Task.x_set_generator, hpr, hpe,
        setTask_setTask_self]
    refine ⟨hit, fun s' hs' => ?_⟩
    rw [hit] at hs'
    cases hs'
    simp [setTask_self, Task.x_set_generator, hpe]
  · intro ch g' s' hout hs'
    rw [heq, hout] at hs'
    cases ch with
    | none =>
      simp only [deliver] at hs'
      cases hs'
      simp [setTask_self, Task.x_set_generator]
    | some c2 =>
      simp only [deliver] at hs'
      cases hs'
      by_cases h2 : p = c2
      · subst h2
        simp [setTask, Task.x_set_parent, Task.x_set_generator]
      · simp [setTask, h2, Task.x_set_parent, Task.x_set_generator]
  · intro hout hpr hpe
    have hit : runIteration tasks c rest =
        .ok ⟨setTask tasks p
              { (tasks p).x_set_generator Gen.exhausted with _exception := some e },
            rest ++ [p]⟩ := by
      rw [heq, hout]
      simp [deliver, setTask_self, Task.set_exception, Task.x_set_generator, hpr, hpe,
        setTask_setTask_self]
    refine ⟨hit, fun s' hs' => ?_⟩
    rw [hit] at hs'
    cases hs'
    simp [setTask_self]

/-- Continuation that catches a thrown exception and returns `99`, and
otherwise returns whatever value is sent. -/
def genCatch : Gen Nat Nat :=
  .mk fun inp =>
    match inp with
    | .throw _ => .stopped (some 99)
    | .send v => .stopped v

/-- Continuation that re-raises any thrown exception (no handler), and
otherwise returns whatever value is sent. -/
def genEcho : Gen Nat Nat :=
  .mk fun inp =>
    match inp with
    | .throw e => .raised e
    | .send v => .stopped v

/-- Heap with parent task `0` (suspended at `genCatch`) and child task `1`
resolved with the user exception `7`. -/
def heapCatch : Heap Nat Nat :=
  setTask (heapSolo genCatch) 1
    { Task.init with _parent := some 0, _exception := some (.user 7) }

/-- Heap with parent task `0` (suspended at `genEcho`) and child task `1`
resolved with the user exception `7`. -/
def heapNoCatch : Heap Nat Nat :=
  setTask (heapSolo genEcho) 1
    { Task.init with _parent := some 0, _exception := some (.user 7) }

/-- Iteration result of delivering the failed child to the catching parent. -/
def iterCatch : LoopState Nat Nat :=
  match runIteration heapCatch 1 [] with
  | .ok s => s
  | .error _ => ⟨heapCatch, []⟩

/-- Iteration result of delivering the failed child to the non-catching
parent. -/
def iterNoCatch : LoopState Nat Nat :=
  match runIteration heapNoCatch 1 [] with
  | .ok s => s
  | .error _ => ⟨heapNoCatch, []⟩

/-- C4 witness: delivering a child failed with user exception `7` to a parent
that catches it resolves the parent with `99` and no stored exception, while
the non-catching parent ends up storing exactly that exception. -/
theorem child_exception_redelivery_witness :
    runIteration heapCatch 1 [] = deliver heapCatch [] 0 (genCatch.resume (.throw (.user 7))) ∧
    ((iterCatch.tasks 0)._result = some (some 99) ∧
     (iterCatch.tasks 0)._exception = none) ∧
    (iterNoCatch.tasks 0)._exception = some (.user 7) := by
  have hc := child_exception_redelivery heapCatch 1 [] 0 (.user 7) genCatch
    rfl rfl rfl rfl
  have hn := child_exception_redelivery heapNoCatch 1 [] 0 (.user 7) genEcho
    rfl rfl rfl rfl
  exact ⟨hc.1, (hc.2.1 (some 99) rfl rfl rfl).2 iterCatch rfl,
    (hn.2.2.2 rfl rfl rfl).2 iterNoCatch rfl⟩

/-- Iteration result of the first yield-control step of `heap3yield`. -/
def iterYield1 : LoopState String Unit :=
  match runIteration heap3yield 0 [] with
  | .ok s => s
  | .error _ => ⟨heap3yield, []⟩

/-- The queue-membership invariant exactly as the specification claims it:
every task in the ready queue is unresolved or resolved-with-a-parent. -/
def queueInvariantClaimed (s : LoopState V E) : Prop :=
  ∀ i ∈ s._tasks_queue, (s.tasks i).done = false ∨ (s.tasks i)._parent ≠ none

/-- Iteration result of the first scheduling step of the `heapReturn5`
scenario: the root finishes and is requeued, already resolved and parentless. -/
def iterReturn5 : LoopState Nat Nat :=
  match runIteration heapReturn5 0 [] with
  | .ok s => s
  | .error _ => ⟨heapReturn5, []⟩

/-- C7 counterexample: starting from a queue state satisfying the claimed
invariant (the pending root alone), one scheduling iteration resolves the
parentless root and appends it back to the queue, so at the next iteration
boundary the queue holds a resolved task with no parent — the claimed
invariant is violated. -/
theorem queue_invariant_counterexample :
    queueInvariantClaimed (⟨heapReturn5, [0]⟩ : LoopState Nat Nat) ∧
    runIteration heapReturn5 0 [] = .ok iterReturn5 ∧
    iterReturn5._tasks_queue = [0] ∧
    (iterReturn5.tasks 0).done = true ∧
    (iterReturn5.tasks 0)._parent = none ∧
    ¬ queueInvariantClaimed iterReturn5 := by
  refine ⟨?_, rfl, rfl, rfl, rfl, ?_⟩
  · intro i hi
    simp only [List.mem_singleton] at hi
    subst hi
    left
    rfl
  · intro h
    have h0 := h 0 (by simp [show iterReturn5._tasks_queue = [0] from rfl])
    rcases h0 with h0 | h0
    · exact absurd (show (iterReturn5.tasks 0).done = true from rfl) (by simp [h0])
    · exact h0 rfl

/-- Queue membership after a successful `deliver`: every reference in the
resulting queue was already in the remaining queue `rest`, or is unresolved,
or has a parent, or is the running task that this very delivery resolved
(unresolved before, resolved and parentless after).  The hypothesis `hyc`
rules out resuming a resolved task whose generator still yields, which the
loop never produces (it exhausts a generator exactly when it resolves its
task). -/
theorem deliver_ok_membership (tasks : Heap V E) (rest : List Nat) (r : Nat)
    (out : GenOut V E) (s' : LoopState V E)
    (hyc : ∀ g', out = .yielded none g' → (tasks r).done = false)
    (hd : deliver tasks rest r out = .ok s') :
    ∀ i ∈ s'._tasks_queue, i ∈ rest ∨
      (s'.tasks i).done = false ∨
      (s'.tasks i)._parent ≠ none ∨
      ((tasks i).done = false ∧ (s'.tasks i).done = true ∧
        (s'.tasks i)._parent = none) := by
  intro i hi
  cases out with
  | stopped v =>
    cases hres : ((tasks r).x_set_generator Gen.exhausted).set_result v with
    | error e =>
      rw [show deliver tasks rest r (.stopped v) = .error e by
        simp [deliver, setTask_self, hres]] at hd
      cases hd
    | ok t' =>
      rw [show deliver tasks rest r (.stopped v) =
          .ok ⟨setTask (setTask tasks r ((tasks r).x_set_generator Gen.exhausted)) r t',
              rest ++ [r]⟩ by
        simp [deliver, setTask_self, hres]] at hd
      cases hd
      rw [set_result_ok_iff] at hres
      obtain ⟨hdone, ht'⟩ := hres
      rcases List.mem_append.mp hi with hir | hirr
      · exact Or.inl hir
      · have hieq : i = r := by simpa using hirr
        subst hieq
        subst ht'
        cases hp : (tasks i)._parent with
        | some p =>
          refine Or.inr (Or.inr (Or.inl ?_))
          simp [setTask_self, Task.x_set_generator, hp]
        | none =>
          refine Or.inr (Or.inr (Or.inr ⟨hdone, ?_, ?_⟩))
          · simp [setTask_self, Task.x_set_generator, Task.done]
          · simp [setTask_self, Task.x_set_generator, hp]
  | raised e =>
    cases hres : ((tasks r).x_set_generator Gen.exhausted).set_exception e with
    | error e2 =>
      rw [show deliver tasks rest r (.raised e) = .error e2 by
        simp [deliver, setTask_self, hres]] at hd
      cases hd
    | ok t' =>
      rw [show deliver tasks rest r (.raised e) =
          .ok ⟨setTask (setTask tasks r ((tasks r).x_set_generator Gen.exhausted)) r t',
              rest ++ [r]⟩ by
        simp [deliver, setTask_self, hres]] at hd
      cases hd
      rw [set_exception_ok_iff] at hres
      obtain ⟨hdone, ht'⟩ := hres
      rcases List.mem_append.mp hi with hir | hirr
      · exact Or.inl hir
      · have hieq : i = r := by simpa using hirr
        subst hieq
        subst ht'
        cases hp : (tasks i)._parent with
        | some p =>
          refine Or.inr (Or.inr (Or.inl ?_))
          simp [setTask_self, Task.x_set_generator, hp]
        | none =>
          refine Or.inr (Or.inr (Or.inr ⟨hdone, ?_, ?_⟩))
          · simp [setTask_self, Task.x_set_generator, Task.done]
          · simp [setTask_self, Task.x_set_generator, hp]
  | yielded ch g' =>
    cases ch with
    | some c2 =>
      rw [show deliver tasks rest r (.yielded (some c2) g') =
          .ok ⟨setTask (setTask tasks r ((tasks r).x_set_generator g')) c2
                ((setTask tasks r ((tasks r).x_set_generator g') c2).x_set_parent r),
              rest ++ [c2]⟩ by simp [deliver]] at hd
      cases hd
      rcases List.mem_append.mp hi with hir | hirr
      · exact Or.inl hir
      · have hieq : i = c2 := by simpa using hirr
        subst hieq
        refine Or.inr (Or.inr (Or.inl ?_))
        simp [setTask_self, Task.x_set_parent]
    | none =>
      have hdone : (tasks r).done = false := hyc g' rfl
      rw [show deliver tasks rest r (.yielded none g') =
          .ok ⟨setTask tasks r ((tasks r).x_set_generator g'), rest ++ [r]⟩ by
        simp [deliver]] at hd
      cases hd
      rcases List.mem_append.mp hi with hir | hirr
      · exact Or.inl hir
      · have hieq : i = r := by simpa using hirr
        subst hieq
        refine Or.inr (Or.inl ?_)
        simpa [setTask_self, Task.x_set_generator, Task.done] using hdone

/-- C7 (amended): the claimed queue trichotomy holds in per-iteration form.
Provided every resolved task's generator is exhausted — which the loop
maintains, since it exhausts a generator exactly when it resolves its task —
an iteration that completes normally leaves in the queue only references that
were already in the remaining queue, are unresolved, have a parent, or belong
to the task this very iteration resolved (unresolved before, resolved and
parentless after); and a popped resolved parentless task is discarded at its
pop: the iteration removes it, modifies no task and enqueues nothing. -/
theorem queue_membership_amended (V E : Type) :
    (∀ (tasks : Heap V E) (c : Nat) (rest : List Nat) (s' : LoopState V E),
      (∀ j, (tasks j).done = true → (tasks j)._generator = some Gen.exhausted) →
      runIteration tasks c rest = .ok s' →
      ∀ i ∈ s'._tasks_queue, i ∈ rest ∨
        (s'.tasks i).done = false ∨
        (s'.tasks i)._parent ≠ none ∨
        ((tasks i).done = false ∧ (s'.tasks i).done = true ∧
          (s'.tasks i)._parent = none)) ∧
    (∀ (tasks : Heap V E) (c : Nat) (rest : List Nat),
      (tasks c).done = true → (tasks c)._parent = none →
      runIteration tasks c rest = .ok ⟨tasks, rest⟩) := by
  constructor
  · intro tasks c rest s' hex hit
    cases hch : chooseRunning tasks c with
    | none =>
      rw [show runIteration tasks c rest = .ok ⟨tasks, rest⟩ by
        simp [runIteration, hch]] at hit
      cases hit
      exact fun i hi => Or.inl hi
    | some ri =>
      obtain ⟨r, inp⟩ := ri
      cases hg : (tasks r)._generator with
      | none =>
        rw [show runIteration tasks c rest = deliver tasks rest r (.raised .genNone) by
          simp [runIteration, hch, hg]] at hit
        exact deliver_ok_membership tasks rest r _ s' (fun g' h => by cases h) hit
      | some g =>
        rw [show runIteration tasks c rest = deliver tasks rest r (g.resume inp) by
          simp [runIteration, hch, hg]] at hit
        refine deliver_ok_membership tasks rest r _ s' ?_ hit
        intro g' hout
        by_cases hdone : (tasks r).done = true
        · have hgex := hex r hdone
          rw [hg] at hgex
          have hgeq : g = Gen.exhausted := Option.some.inj hgex
          subst hgeq
          simp [Gen.exhausted, Gen.resume] at hout
        · revert hdone
          cases (tasks r).done <;> simp
  · intro tasks c rest hd hp
    simp [runIteration, chooseRunning, hd, Task.x_parent, hp]

/-- C7 witness: the membership trichotomy evaluated on the first iteration of
the `heap3yield` scenario (hypotheses discharged concretely, with the single
queue entry `0` left unresolved), and the discard step evaluated on the
resolved parentless root of `iterReturn5`, which leaves the heap untouched
and the queue empty. -/
theorem queue_membership_amended_witness :
    (0 ∈ ([] : List Nat) ∨
     (iterYield1.tasks 0).done = false ∨
     (iterYield1.tasks 0)._parent ≠ none ∨
     ((heap3yield 0).done = false ∧ (iterYield1.tasks 0).done = true ∧
       (iterYield1.tasks 0)._parent = none)) ∧
    runIteration iterReturn5.tasks 0 [] = .ok ⟨iterReturn5.tasks, []⟩ := by
  constructor
  · refine (queue_membership_amended String Unit).1 heap3yield 0 [] iterYield1
      (fun j hj => ?_) rfl 0 (by decide)
    exfalso
    revert hj
    by_cases h : j = 0 <;>
      simp [heap3yield, heapSolo, setTask, h, Task.done, Task.x_set_generator, Task.init]
  · exact (queue_membership_amended Nat Nat).2 iterReturn5.tasks 0 [] rfl rfl

/-- C8: a resumed continuation that suspends yielding a wait-on-child task
reference makes the scheduler set the child's parent to the resumed task and
enqueue the child at the back, without requeuing the resumed task; and a task
that is not the popped one is only ever resumed through a popped resolved
task whose parent it is — so a suspended task is not resumed before a task it
is registered as parent of (its child) resolves. -/
theorem wait_on_child_scheduling (V E : Type) :
    (∀ (tasks : Heap V E) (c r : Nat) (inp : ResumeInput V E),
      chooseRunning tasks c = some (r, inp) → r ≠ c →
      (tasks c).done = true ∧ (tasks c)._parent = some r) ∧
    (∀ (tasks : Heap V E) (c r : Nat) (rest : List Nat) (inp : ResumeInput V E)
        (g g' : Gen V E) (ch : Nat),
      chooseRunning tasks c = some (r, inp) →
      (tasks r)._generator = some g →
      g.resume inp = .yielded (some ch) g' →
      runIteration tasks c rest =
        .ok ⟨setTask (setTask tasks r ((tasks r).x_set_generator g')) ch
              ((setTask tasks r ((tasks r).x_set_generator g') ch).x_set_parent r),
            rest ++ [ch]⟩ ∧
      (∀ s', runIteration tasks c rest = .ok s' →
        (s'.tasks ch)._parent = some r ∧
        s'._tasks_queue = rest ++ [ch] ∧
        (r ∉ rest → r ≠ ch → r ∉ s'._tasks_queue))) := by
  constructor
  · intro tasks c r inp hchoose hne
    unfold chooseRunning at hchoose
    by_cases hd : (tasks c).done = false
    · rw [if_pos hd] at hchoose
      cases hchoose
      exact absurd rfl hne
    · rw [if_neg hd] at hchoose
      cases hxp : (tasks c).x_parent with
      | none => rw [hxp] at hchoose; cases hchoose
      | some p =>
        rw [hxp] at hchoose
        have hp : (tasks c)._parent = some p := hxp
        cases hres : (tasks c).result with
        | ok v =>
          rw [hres] at hchoose
          cases hchoose
          exact ⟨by simpa using hd, hp⟩
        | error e2 =>
          rw [hres] at hchoose
          cases hchoose
          exact ⟨by simpa using hd, hp⟩
  · intro tasks c r rest inp g g' ch hchoose hg hout
    have hit : runIteration tasks c rest =
        .ok ⟨setTask (setTask tasks r ((tasks r).x_set_generator g')) ch
              ((setTask tasks r ((tasks r).x_set_generator g') ch).x_set_parent r),
            rest ++ [ch]⟩ := by
      simp [runIteration, hchoose, hg, hout, deliver]
    refine ⟨hit, fun s' hs' => ?_⟩
    rw [hit] at hs'
    cases hs'
    refine ⟨by simp [setTask_self, Task.x_set_parent], rfl, fun hrest hrch hmem => ?_⟩
    simp only [List.mem_append, List.mem_singleton] at hmem
    rcases hmem with hmem | hmem
    · exact hrest hmem
    · exact hrch hmem

/-- Parent generator that yields child task `1` and then echoes whatever
comes back. -/
def genYieldChild1 : Gen Nat Nat :=
  .mk fun _ => .yielded (some 1) genEcho

/-- Heap with a pending parent task `0` about to yield child task `1`, whose
generator raises the user exception `7`. -/
def heapParentChild : Heap Nat Nat :=
  setTask (heapSolo genYieldChild1) 1 (Task.init.x_set_generator (genRaise (.user 7)))

/-- Heap whose task `1` is resolved with user exception `7` and has parent
`0` (used to exercise the resumed-task characterization). -/
def heapDoneChild : Heap Nat Nat :=
  setTask (heapSolo genYieldChild1) 1
    { Task.init with _parent := some 0, _exception := some (.user 7) }

/-- Iteration result of the parent's wait-on-child suspension. -/
def iterYieldChild : LoopState Nat Nat :=
  match runIteration heapParentChild 0 [] with
  | .ok s => s
  | .error _ => ⟨heapParentChild, []⟩

/-- C8 witness: resuming a popped task other than itself requires a resolved
task whose parent it is; and the parent yielding child `1` leaves the child
with parent `0`, queue `[1]`, and the parent not requeued. -/
theorem wait_on_child_scheduling_witness :
    ((heapDoneChild 1).done = true ∧ (heapDoneChild 1)._parent = some 0) ∧
    ((iterYieldChild.tasks 1)._parent = some 0 ∧
     iterYieldChild._tasks_queue = [1] ∧
     0 ∉ iterYieldChild._tasks_queue) := by
  have h1 := (wait_on_child_scheduling Nat Nat).1 heapDoneChild 1 0
    (.throw (.user 7)) rfl (by decide)
  have h2 := ((wait_on_child_scheduling Nat Nat).2 heapParentChild 0 0 []
    (.send none) genYieldChild1 genEcho 1 rfl rfl rfl).2 iterYieldChild rfl
  exact ⟨h1, h2.1, h2.2.1, h2.2.2 (by simp) (by decide)⟩

/-- C9: a popped unresolved task is resumed with `send(None)` — no value and
no exception delivered; a resumed continuation that suspends yielding the
yield-control marker (`None`) is requeued at the back with only its generator
advanced (parent, result and exception unchanged) and no other task touched;
and the end-to-end scenario: a computation that yield-controls three times
before returning `"done"` resolves to `"done"` in exactly 6 fuelled loop
steps where the yield-free computation needs exactly 3 — precisely 3 extra
scheduling cycles. -/
theorem yield_control_requeue (V E : Type) :
    (∀ (tasks : Heap V E) (c : Nat), (tasks c).done = false →
      chooseRunning tasks c = some (c, .send none)) ∧
    (∀ (tasks : Heap V E) (c r : Nat) (rest : List Nat) (inp : ResumeInput V E)
        (g g' : Gen V E),
      chooseRunning tasks c = some (r, inp) →
      (tasks r)._generator = some g →
      g.resume inp = .yielded none g' →
      runIteration tasks c rest =
        .ok ⟨setTask tasks r ((tasks r).x_set_generator g'), rest ++ [r]⟩ ∧
      ((tasks r).x_set_generator g')._parent = (tasks r)._parent ∧
      ((tasks r).x_set_generator g')._result = (tasks r)._result ∧
      ((tasks r).x_set_generator g')._exception = (tasks r)._exception) ∧
    (run 6 heap3yield 0 = some (.ok (some "done")) ∧
     run 5 heap3yield 0 = none ∧
     run 3 heap0yield 0 = some (.ok (some "done")) ∧
     run 2 heap0yield 0 = none) := by
  refine ⟨?_, ?_, rfl, rfl, rfl, rfl⟩
  · intro tasks c hd
    simp [chooseRunning, hd]
  · intro tasks c r rest inp g g' hchoose hg hout
    refine ⟨?_, rfl, rfl, rfl⟩
    simp [runIteration, hchoose, hg, hout, deliver]

/-- C9 witness: the pending root of `heap3yield` is resumed with `send(None)`
and, yield-controlling, is requeued with outcome fields untouched. -/
theorem yield_control_requeue_witness :
    chooseRunning heap3yield 0 = some (0, .send none) ∧
    runIteration heap3yield 0 [] =
      .ok ⟨setTask heap3yield 0
            ((heap3yield 0).x_set_generator (genYieldN 2 (some "done"))), [0]⟩ ∧
    ((heap3yield 0).x_set_generator (genYieldN 2 (some "done")))._result
      = (heap3yield 0)._result := by
  have h1 := (yield_control_requeue String Unit).1 heap3yield 0 rfl
  have h2 := (yield_control_requeue String Unit).2.1 heap3yield 0 0 []
    (.send none) (genYieldN 3 (some "done")) (genYieldN 2 (some "done")) rfl rfl rfl
  exact ⟨h1, h2.1, h2.2.2.1⟩

/-- C10 witness: the `None`-result behaviour evaluated at concrete types. -/
theorem set_result_none_distinguishable_witness :
    (Task.init : Task Nat Nat).done = false ∧
    (Task.init : Task Nat Nat).result = .error .invalidState ∧
    (Task.init : Task Nat Nat).set_result none =
      .ok { Task.init with _result := some none } ∧
    ({ Task.init with _result := some none } : Task Nat Nat).done = true ∧
    ({ Task.init with _result := some none } : Task Nat Nat).result = .ok none :=
  set_result_none_distinguishable Nat Nat

end GenCo
